import Mathlib

/-!
Shallow embedding of `src/functions/watermark.js` (TAGCH/addWatermarkLib).

The program is a single HTTP endpoint `POST /addWatermark` that overlays a
two-line text watermark on every page of a base64-encoded PDF.  External
collaborators (pdf-lib, fontkit, the filesystem, express) are modelled as an
explicit environment of fallible operations (`Env`); JavaScript numbers are
modelled as exact rationals (every constant in the source — 65, 0.2, -45, 40,
0.5, -20, -30 — is treated symbolically; no claim depends on binary floating
point rounding); absent JSON fields are modelled as `Option`.

State that the source mutates (the module-level `sarabunFontBytes` /
`sarabunFontLoaded` pair) is threaded explicitly as a `FontState`.
-/

namespace Watermark

/-- Raw font bytes (`sarabunFontBytes`, a Node `Buffer`). -/
abbrev Bytes := List Nat

/-- A font as used by the placement code: pdf-lib's
`font.widthOfTextAtSize(text, size)` metric, i.e. a width measure. -/
abbrev Font := String → ℚ → ℚ

/-- A page as used by the code: `page.getSize()` exposes width and height in
PDF points. -/
structure Page where
  width : ℚ
  height : ℚ
deriving DecidableEq

/-- An rgb colour, as produced by pdf-lib's `rgb(r, g, b)`. -/
structure Color where
  r : ℚ
  g : ℚ
  b : ℚ
deriving DecidableEq

/-- pdf-lib's `rgb` constructor. -/
def rgb (r g b : ℚ) : Color := ⟨r, g, b⟩

/-- The argument record of one `page.drawText(text, {...})` call
(lines 113-121 and 129-137 of watermark.js).  `rotate` is the angle in
degrees handed to pdf-lib's `degrees(...)`. -/
structure DrawCall where
  text : String
  x : ℚ
  y : ℚ
  size : ℚ
  opacity : ℚ
  rotate : ℚ
  font : Font
  color : Color

/-- A caller-supplied `watermarkOptions` object: any subset of the four
numeric fields may be present (absent = `none`).  JSON bodies cannot carry
`undefined`, so presence/absence of a key is the only distinction the spread
on line 90 observes. -/
structure PartialWatermarkOptions where
  size : Option ℚ := none
  opacity : Option ℚ := none
  rotate : Option ℚ := none
  sizesubtitle : Option ℚ := none
deriving DecidableEq

/-- Fully resolved watermark options, after merging with the defaults. -/
structure WatermarkOptions where
  size : ℚ
  opacity : ℚ
  rotate : ℚ
  sizesubtitle : ℚ
deriving DecidableEq

/-- `defaultWatermarkOptions` (lines 84-89). -/
def defaultWatermarkOptions : WatermarkOptions :=
  { size := 65, opacity := 0.2, rotate := -45, sizesubtitle := 40 }

/-- One field of the object spread `{ ...defaults, ...overrides }`: a key
present in the override object wins (whatever its value, falsy included),
an absent key keeps the default. -/
def spreadField (d : ℚ) (o : Option ℚ) : ℚ :=
  match o with
  | none => d
  | some v => v

/-- `finalWatermarkOptions = { ...defaultWatermarkOptions, ...watermarkOptions }`
(line 90).  Spreading `undefined` (an absent `watermarkOptions` body field)
contributes nothing, so the defaults survive unchanged. -/
def mergeOptions (watermarkOptions : Option PartialWatermarkOptions) : WatermarkOptions :=
  match watermarkOptions with
  | none => defaultWatermarkOptions
  | some p =>
    { size := spreadField defaultWatermarkOptions.size p.size
      opacity := spreadField defaultWatermarkOptions.opacity p.opacity
      rotate := spreadField defaultWatermarkOptions.rotate p.rotate
      sizesubtitle := spreadField defaultWatermarkOptions.sizesubtitle p.sizesubtitle }

/-- JavaScript's `v || d` for a possibly-absent string `v`: both `undefined`
and the empty string are falsy and fall through to the default. -/
def jsOrDefault (v : Option String) (d : String) : String :=
  match v with
  | none => d
  | some s => if s = "" then d else s

/-- `finalWatermarkLine1 = watermarkLine1 || 'CONFIDENTIAL'` (line 92). -/
def finalWatermarkLine1 (watermarkLine1 : Option String) : String :=
  jsOrDefault watermarkLine1 "CONFIDENTIAL"

/-- Template literal of line 93:
`finalWatermarkLine2 = `${firstName || ''} ${lastName || ''}``. -/
def finalWatermarkLine2 (firstName lastName : Option String) : String :=
  jsOrDefault firstName "" ++ " " ++ jsOrDefault lastName ""

/-- The placement engine: the body of the page loop (lines 99-137), as the
list of the two `drawText` argument records it issues, in order.  The source
uses the same embedded font for both lines (`mainFont = subtitleFont =
customFont`), so a single `font` is passed. -/
def placeWatermark (font : Font) (page : Page) (line1 line2 : String)
    (opts : WatermarkOptions) : List DrawCall :=
  let rotateDegrees := opts.rotate
  let line1Width := font line1 opts.size
  let line1Height := opts.size
  let pageCenterX := page.width / 2
  let pageCenterY := page.height / 2
  let line1DrawX := pageCenterX - line1Width / 2
  let line1DrawY := pageCenterY - line1Height / 2
  let xOffsetRotated : ℚ := -20
  let yOffsetRotated : ℚ := -30
  [ { text := line1, x := line1DrawX, y := line1DrawY,
      size := opts.size, opacity := opts.opacity, rotate := rotateDegrees,
      font := font, color := rgb 0.5 0.5 0.5 },
    { text := line2, x := line1DrawX + xOffsetRotated, y := line1DrawY + yOffsetRotated,
      size := opts.sizesubtitle, opacity := opts.opacity, rotate := rotateDegrees,
      font := font, color := rgb 0.5 0.5 0.5 } ]

/-- A parsed PDF document: `pdfDoc.getPages()` in page order. -/
structure PdfDoc where
  pages : List Page

/-- One page of the output document: the input page together with the draw
calls issued against it. -/
structure WatermarkedPage where
  page : Page
  draws : List DrawCall

/-- The 200 response body `{ success: true, watermarkedPdfBase64 }`; `doc`
carries the abstract content that `pdfDoc.save()` serialised into
`watermarkedPdfBase64`. -/
structure SuccessBody where
  watermarkedPdfBase64 : String
  doc : List WatermarkedPage

/-- An HTTP response of the endpoint: either `res.status(status).json({error,
details?})` or the success body. -/
inductive Response where
  | err (status : Nat) (error : String) (details : Option String)
  | ok (body : SuccessBody)

/-- The module-level mutable state: `sarabunFontBytes` and
`sarabunFontLoaded` (lines 25-26). -/
structure FontState where
  bytes : Option Bytes
  loaded : Bool

/-- The external collaborators, as the outcomes they produce during one
request.  `fontRead` is `fs.readFile(fontPath)`; `parsePdf` is
`Buffer.from(pdfBase64, 'base64')` followed by `PDFDocument.load`;
`embedFont` is `pdfDoc.embedFont(sarabunFontBytes)` (yielding the font's
width metric); `drawText` is the side-effecting `page.drawText`, which may
throw; `save` is `pdfDoc.save()` followed by base64 encoding. -/
structure Env where
  fontRead : Except String Bytes
  parsePdf : String → Except String PdfDoc
  embedFont : Bytes → Except String Font
  drawText : Page → DrawCall → Except String Unit
  save : List WatermarkedPage → Except String String

/-- `loadSarabunFont` (lines 31-43): on a successful read, store the bytes
and set the loaded flag; on failure, leave the state untouched and throw
`Failed to load Sarabun font: <message>`. -/
def loadSarabunFont (readResult : Except String Bytes) (st : FontState) :
    FontState × Except String Unit :=
  match readResult with
  | .ok b => ({ bytes := some b, loaded := true }, .ok ())
  | .error e => (st, .error ("Failed to load Sarabun font: " ++ e))

/-- Issue a list of draw calls against a page in order; the first throw from
`page.drawText` escapes (as it would escape the `forEach` callback). -/
def drawCallsSeq (env : Env) (page : Page) : List DrawCall → Except String Unit
  | [] => .ok ()
  | c :: cs =>
    match env.drawText page c with
    | .ok _ => drawCallsSeq env page cs
    | .error e => .error e

/-- The `pdfDoc.getPages().forEach(page => ...)` loop (lines 98-138): for
each page in order, compute the placement and issue the two draw calls; an
exception aborts the loop.  Returns the watermarked pages. -/
def drawPages (env : Env) (font : Font) (line1 line2 : String)
    (opts : WatermarkOptions) : List Page → Except String (List WatermarkedPage)
  | [] => .ok []
  | p :: ps =>
    match drawCallsSeq env p (placeWatermark font p line1 line2 opts) with
    | .error e => .error e
    | .ok _ =>
      match drawPages env font line1 line2 opts ps with
      | .error e => .error e
      | .ok rest => .ok (⟨p, placeWatermark font p line1 line2 opts⟩ :: rest)

/-- The structure holding the request body fields destructured on
lines 65-71; every field may be absent from the JSON body. -/
structure Request where
  pdfBase64 : Option String
  firstName : Option String
  lastName : Option String
  watermarkLine1 : Option String
  watermarkOptions : Option PartialWatermarkOptions

/-- The `try` region (lines 77-147): decode and parse the document, embed
the font, resolve strings and options, loop over the pages, serialise.  Any
step's exception propagates out (to be caught at the request boundary). -/
def tryAddWatermark (env : Env) (fontBytes : Bytes) (req : Request)
    (pdfB64 : String) : Except String SuccessBody :=
  match env.parsePdf pdfB64 with
  | .error e => .error e
  | .ok pdfDoc =>
    match env.embedFont fontBytes with
    | .error e => .error e
    | .ok customFont =>
      let finalOptions := mergeOptions req.watermarkOptions
      let line1 := finalWatermarkLine1 req.watermarkLine1
      let line2 := finalWatermarkLine2 req.firstName req.lastName
      match drawPages env customFont line1 line2 finalOptions pdfDoc.pages with
      | .error e => .error e
      | .ok wpages =>
        match env.save wpages with
        | .error e => .error e
        | .ok b64 => .ok { watermarkedPdfBase64 := b64, doc := wpages }

/-- Lines 65-151: after the font guard has passed, destructure the body,
reject a falsy `pdfBase64` (absent or empty string) with 400, and otherwise
run the `try` region, catching any exception as a 500 with the underlying
message in `details`. -/
def handleAfterFont (env : Env) (fontBytes : Bytes) (req : Request) : Response :=
  match req.pdfBase64 with
  | none => .err 400 "PDF data (pdfBase64) is required." none
  | some s =>
    if s = "" then .err 400 "PDF data (pdfBase64) is required." none
    else
      match tryAddWatermark env fontBytes req s with
      | .ok body => .ok body
      | .error e => .err 500 "Failed to generate watermarked PDF" (some e)

/-- The outcome of one invocation of the endpoint: the new module state, the
HTTP response, and how many times `fs.readFile(fontPath)` was performed
(0 when the cache was warm, 1 when a load was attempted). -/
structure HandlerResult where
  state : FontState
  response : Response
  fontReads : Nat

/-- The whole `app.post('/addWatermark', ...)` handler (lines 55-152): the
font guard first (lines 57-63) — on a cold cache attempt the load and answer
500 with the error message if it fails — then the body handling. -/
def addWatermarkHandler (env : Env) (st : FontState) (req : Request) : HandlerResult :=
  if st.loaded then
    { state := st, response := handleAfterFont env (st.bytes.getD []) req, fontReads := 0 }
  else
    match loadSarabunFont env.fontRead st with
    | (st', .error msg) => { state := st', response := .err 500 msg none, fontReads := 1 }
    | (st', .ok _) =>
      { state := st', response := handleAfterFont env (st'.bytes.getD []) req, fontReads := 1 }

/-! ## Fixtures used by witnesses and counterexamples -/

/-- A concrete width metric for witnesses. -/
def okFont : Font := fun s k => k * s.length

/-- A concrete A4-ish page. -/
def wPage : Page := ⟨595, 842⟩

/-- A concrete one-page document. -/
def wDoc : PdfDoc := ⟨[wPage]⟩

/-- An environment in which every collaborator succeeds. -/
def okEnv : Env :=
  { fontRead := .ok [0]
    parsePdf := fun _ => .ok wDoc
    embedFont := fun _ => .ok okFont
    drawText := fun _ _ => .ok ()
    save := fun _ => .ok "b64" }

/-- An environment whose font read fails with `ENOENT`. -/
def fontFailEnv : Env :=
  { okEnv with fontRead := .error "ENOENT" }

/-- An environment whose document parse fails. -/
def badPdfEnv : Env :=
  { okEnv with parsePdf := fun _ => .error "Failed to parse PDF document" }

/-- Cold module state: nothing cached, flag down. -/
def coldState : FontState := { bytes := none, loaded := false }

/-- Warm module state: bytes cached, flag up. -/
def loadedState : FontState := { bytes := some [0], loaded := true }

/-- A request with no fields at all. -/
def emptyReq : Request :=
  { pdfBase64 := none, firstName := none, lastName := none
    watermarkLine1 := none, watermarkOptions := none }

/-- A request carrying a document and the Jane Doe names. -/
def pdfReq : Request :=
  { pdfBase64 := some "JVBERi0=", firstName := some "Jane", lastName := some "Doe"
    watermarkLine1 := none, watermarkOptions := none }

/-! ## Helper lemmas -/

/-- If the page loop succeeds, the output is exactly the input pages in
order, each paired with its placement. -/
theorem drawPages_ok (env : Env) (font : Font) (line1 line2 : String)
    (opts : WatermarkOptions) :
    ∀ (ps : List Page) (l : List WatermarkedPage),
      drawPages env font line1 line2 opts ps = .ok l →
      l = ps.map (fun p => ⟨p, placeWatermark font p line1 line2 opts⟩) := by
  intro ps
  induction ps with
  | nil =>
    intro l h
    simp only [drawPages] at h
    cases h
    rfl
  | cons p ps ih =>
    intro l h
    simp only [drawPages] at h
    split at h
    · exact absurd h (by simp)
    · split at h
      · exact absurd h (by simp)
      · rename_i rest hrest
        cases h
        simp [ih rest hrest]

/-- If the body handling yields a success response, the `try` region
produced that body and `pdfBase64` was non-empty. -/
theorem handleAfterFont_ok (env : Env) (fb : Bytes) (req : Request) (s : String)
    (body : SuccessBody) (hp : req.pdfBase64 = some s)
    (h : handleAfterFont env fb req = .ok body) :
    tryAddWatermark env fb req s = .ok body := by
  simp only [handleAfterFont, hp] at h
  split at h
  · exact absurd h (by simp)
  · split at h
    · rename_i b hb
      cases h
      exact hb
    · exact absurd h (by simp)

/-- A success response means the body handling succeeded for some font
bytes (the cached ones, or the just-loaded ones). -/
theorem handler_ok (env : Env) (st : FontState) (req : Request) (body : SuccessBody)
    (h : (addWatermarkHandler env st req).response = .ok body) :
    ∃ fb : Bytes, handleAfterFont env fb req = .ok body := by
  unfold addWatermarkHandler at h
  split at h
  · exact ⟨st.bytes.getD [], h⟩
  · split at h
    · exact absurd h (by simp)
    · exact ⟨_, h⟩

/-! ## Claim theorems -/

/-- C1: for every page, line1's unrotated draw origin is the page center
`(width/2, height/2)` offset left by half of line1's measured width at
`options.fontSize` and down by half of `fontSize` (line height approximated
as the font size), and line1 is drawn there at size `fontSize`, the request
opacity, the resolved rotation angle, and the fixed medium-gray
`rgb(0.5, 0.5, 0.5)`. -/
theorem line1_draw_centered (font : Font) (page : Page) (line1 line2 : String)
    (opts : WatermarkOptions) :
    (placeWatermark font page line1 line2 opts).head? =
      some { text := line1
             x := page.width / 2 - font line1 opts.size / 2
             y := page.height / 2 - opts.size / 2
             size := opts.size, opacity := opts.opacity, rotate := opts.rotate
             font := font, color := rgb 0.5 0.5 0.5 } := rfl

/-- C2: line2's draw origin is line1's unrotated origin shifted by the fixed
offset `(-20, -30)`, independent of line2's own measured width, and line2 is
drawn at `sizesubtitle` with the same opacity, rotation, font and colour as
line1. -/
theorem line2_fixed_offset (font : Font) (page : Page) (line1 line2 : String)
    (opts : WatermarkOptions) :
    ((placeWatermark font page line1 line2 opts)[1]? =
      some { text := line2
             x := (page.width / 2 - font line1 opts.size / 2) + (-20)
             y := (page.height / 2 - opts.size / 2) + (-30)
             size := opts.sizesubtitle, opacity := opts.opacity, rotate := opts.rotate
             font := font, color := rgb 0.5 0.5 0.5 })
    ∧ ∀ line2' : String,
        ((placeWatermark font page line1 line2 opts)[1]?.map fun c => (c.x, c.y)) =
        ((placeWatermark font page line1 line2' opts)[1]?.map fun c => (c.x, c.y)) :=
  ⟨rfl, fun _ => rfl⟩

/-- C3: the option merge is field-independent over the defaults
`{size: 65, opacity: 0.2, rotate: -45, sizesubtitle: 40}`: each supplied
field replaces only its own default, each absent field keeps its default;
in particular supplying only `opacity` leaves the other three defaults. -/
theorem mergeOptions_field_independent :
    (∀ p : PartialWatermarkOptions,
      mergeOptions (some p) =
        { size := p.size.getD 65, opacity := p.opacity.getD 0.2
          rotate := p.rotate.getD (-45), sizesubtitle := p.sizesubtitle.getD 40 })
    ∧ mergeOptions none = { size := 65, opacity := 0.2, rotate := -45, sizesubtitle := 40 }
    ∧ (∀ v : ℚ, mergeOptions (some { opacity := some v }) =
        { size := 65, opacity := v, rotate := -45, sizesubtitle := 40 }) := by
  refine ⟨fun p => ?_, rfl, fun v => rfl⟩
  rcases p with ⟨s, o, r, t⟩
  cases s <;> cases o <;> cases r <;> cases t <;> rfl

/-- C4: line1 resolves to the supplied `watermarkLine1` when present (and
non-empty), otherwise to the literal `CONFIDENTIAL`; line2 is `firstName`
and `lastName` (each defaulting to the empty string) joined by one space,
so Jane/Doe gives `"Jane Doe"` and both omitted give the single space
`" "`, which is still issued as the second draw call. -/
theorem resolve_lines_defaults :
    (∀ s : String, s ≠ "" → finalWatermarkLine1 (some s) = s)
    ∧ finalWatermarkLine1 none = "CONFIDENTIAL"
    ∧ finalWatermarkLine2 (some "Jane") (some "Doe") = "Jane Doe"
    ∧ finalWatermarkLine2 none none = " "
    ∧ (∀ (font : Font) (page : Page) (l1 : String) (opts : WatermarkOptions),
        ((placeWatermark font page l1 (finalWatermarkLine2 none none) opts)[1]?.map
          DrawCall.text) = some " ") := by
  refine ⟨fun s hs => ?_, rfl, rfl, rfl, fun font page l1 opts => rfl⟩
  simp [finalWatermarkLine1, jsOrDefault, hs]

/-- C4 witness: the resolution theorem applied at concrete inputs. -/
theorem resolve_lines_defaults_witness :
    finalWatermarkLine1 (some "TOP SECRET") = "TOP SECRET" :=
  resolve_lines_defaults.1 "TOP SECRET" (by decide)

/-- C9: empty strings are treated as absent by the string defaults: a
supplied `""` for `watermarkLine1` still yields `CONFIDENTIAL`, and an
empty `firstName` or `lastName` contributes exactly what an omitted one
does (falsy coalescing, not presence-based defaulting). -/
theorem empty_strings_as_absent :
    finalWatermarkLine1 (some "") = "CONFIDENTIAL"
    ∧ (∀ lastName, finalWatermarkLine2 (some "") lastName = finalWatermarkLine2 none lastName)
    ∧ (∀ firstName, finalWatermarkLine2 firstName (some "") = finalWatermarkLine2 firstName none) :=
  ⟨rfl, fun _ => rfl, fun _ => rfl⟩

/-- C10: numeric option values are never validated or clamped: any supplied
numbers (zero, negative, opacity outside `[0,1]` included) override the
defaults and reach both draw calls unchanged — line1 gets `size`, line2
gets `sizesubtitle`, both get `opacity` and `rotate` verbatim. -/
theorem numeric_options_unvalidated (s o r t : ℚ) (font : Font) (page : Page)
    (l1 l2 : String) :
    mergeOptions (some { size := some s, opacity := some o, rotate := some r, sizesubtitle := some t }) =
      { size := s, opacity := o, rotate := r, sizesubtitle := t }
    ∧ ((placeWatermark font page l1 l2
        (mergeOptions (some { size := some s, opacity := some o, rotate := some r, sizesubtitle := some t }))).map
          fun c => (c.size, c.opacity, c.rotate)) = [(s, o, r), (t, o, r)] :=
  ⟨rfl, rfl⟩

/-- C5 counterexample: with a cold font cache and a failing font read, a
request with `pdfBase64` absent is answered 500 (the font guard runs before
the `pdfBase64` check, lines 57-63 vs. line 73), not 400 — refuting
"responds 400 regardless of the font cache state". -/
theorem missing_pdf_cold_font_not_400 :
    (addWatermarkHandler fontFailEnv coldState emptyReq).response
        = .err 500 ("Failed to load Sarabun font: " ++ "ENOENT") none
    ∧ (addWatermarkHandler fontFailEnv coldState emptyReq).response
        ≠ .err 400 "PDF data (pdfBase64) is required." none := by
  refine ⟨rfl, fun hcontra => ?_⟩
  rw [show (addWatermarkHandler fontFailEnv coldState emptyReq).response
        = .err 500 ("Failed to load Sarabun font: " ++ "ENOENT") none from rfl] at hcontra
  injection hcontra with h1 h2 h3
  exact absurd h1 (by decide)

/-- C5 (amended): for every request in which `pdfBase64` is absent,
regardless of the other fields, provided the font guard passes (font
already cached, or the font read succeeds), the handler responds 400 with
`PDF data (pdfBase64) is required.` and produces no document. -/
theorem missing_pdf_400_when_font_available (env : Env) (st : FontState) (req : Request)
    (h1 : req.pdfBase64 = none)
    (h2 : st.loaded = true ∨ ∃ b : Bytes, env.fontRead = .ok b) :
    (addWatermarkHandler env st req).response
      = .err 400 "PDF data (pdfBase64) is required." none := by
  rcases h2 with h2 | ⟨b, h2⟩
  · simp [addWatermarkHandler, h2, handleAfterFont, h1]
  · unfold addWatermarkHandler
    split
    · simp [handleAfterFont, h1]
    · simp [loadSarabunFont, h2, handleAfterFont, h1]

/-- C5 witness: the amended theorem at a concrete cold-but-loadable state. -/
theorem missing_pdf_400_witness :
    (addWatermarkHandler okEnv coldState emptyReq).response
      = .err 400 "PDF data (pdfBase64) is required." none :=
  missing_pdf_400_when_font_available okEnv coldState emptyReq rfl (Or.inr ⟨[0], rfl⟩)

/-- C6: whenever the handler answers success for a document that parsed to
`pdfDoc`, the response document has exactly the pages of the input in
order, each watermarked by one invocation of the placement engine — in
particular the page counts agree. -/
theorem pages_preserved (env : Env) (st : FontState) (req : Request) (s : String)
    (pdfDoc : PdfDoc) (body : SuccessBody)
    (hpdf : req.pdfBase64 = some s)
    (hparse : env.parsePdf s = .ok pdfDoc)
    (hok : (addWatermarkHandler env st req).response = .ok body) :
    body.doc.length = pdfDoc.pages.length
    ∧ ∃ font : Font, body.doc = pdfDoc.pages.map (fun p =>
        ⟨p, placeWatermark font p (finalWatermarkLine1 req.watermarkLine1)
            (finalWatermarkLine2 req.firstName req.lastName)
            (mergeOptions req.watermarkOptions)⟩) := by
  obtain ⟨fb, hb⟩ := handler_ok env st req body hok
  have ht := handleAfterFont_ok env fb req s body hpdf hb
  unfold tryAddWatermark at ht
  split at ht
  · rename_i e heq
    rw [hparse] at heq
    exact absurd heq (by simp)
  · rename_i d heq
    rw [hparse] at heq
    injection heq with heq
    subst heq
    dsimp only at ht
    split at ht
    · exact absurd ht (by simp)
    · rename_i font hfont
      split at ht
      · exact absurd ht (by simp)
      · rename_i wpages hw
        split at ht
        · exact absurd ht (by simp)
        · rename_i b64 hsave
          cases ht
          have hmap := drawPages_ok env font (finalWatermarkLine1 req.watermarkLine1)
            (finalWatermarkLine2 req.firstName req.lastName)
            (mergeOptions req.watermarkOptions) pdfDoc.pages wpages hw
          subst hmap
          exact ⟨by simp, font, rfl⟩

/-- C6 witness: the page-count theorem at a concrete one-page document. -/
theorem pages_preserved_witness :
    (SuccessBody.mk "b64"
        [⟨wPage, placeWatermark okFont wPage "CONFIDENTIAL" "Jane Doe" defaultWatermarkOptions⟩]).doc.length
      = wDoc.pages.length
    ∧ ∃ font : Font,
        (SuccessBody.mk "b64"
          [⟨wPage, placeWatermark okFont wPage "CONFIDENTIAL" "Jane Doe" defaultWatermarkOptions⟩]).doc
        = wDoc.pages.map (fun p =>
            ⟨p, placeWatermark font p (finalWatermarkLine1 pdfReq.watermarkLine1)
                (finalWatermarkLine2 pdfReq.firstName pdfReq.lastName)
                (mergeOptions pdfReq.watermarkOptions)⟩) :=
  pages_preserved okEnv loadedState pdfReq "JVBERi0=" wDoc
    (SuccessBody.mk "b64"
      [⟨wPage, placeWatermark okFont wPage "CONFIDENTIAL" "Jane Doe" defaultWatermarkOptions⟩])
    rfl rfl rfl

/-- C7: the font loader is lazy with retry and no partial cache: a
successful read caches the bytes and raises the flag; a warm cache makes
the handler perform zero reads, leave the state untouched and use the
cached bytes; a failed read leaves the state (and the down flag) untouched
and surfaces as a 500 with the wrapped message; and the next call on a
still-cold state performs the read again, succeeding if the read now
succeeds. -/
theorem font_loader_lazy_retry :
    (∀ (b : Bytes) (st : FontState),
      loadSarabunFont (.ok b) st = ({ bytes := some b, loaded := true }, .ok ()))
    ∧ (∀ (env : Env) (st : FontState) (req : Request), st.loaded = true →
        (addWatermarkHandler env st req).fontReads = 0
        ∧ (addWatermarkHandler env st req).state = st
        ∧ (addWatermarkHandler env st req).response
            = handleAfterFont env (st.bytes.getD []) req)
    ∧ (∀ (e : String) (st : FontState),
        loadSarabunFont (.error e) st = (st, .error ("Failed to load Sarabun font: " ++ e)))
    ∧ (∀ (env : Env) (st : FontState) (req : Request) (e : String),
        st.loaded = false → env.fontRead = .error e →
        (addWatermarkHandler env st req).response
            = .err 500 ("Failed to load Sarabun font: " ++ e) none
        ∧ (addWatermarkHandler env st req).state = st
        ∧ (addWatermarkHandler env st req).fontReads = 1)
    ∧ (∀ (env : Env) (st : FontState) (req : Request) (b : Bytes),
        st.loaded = false → env.fontRead = .ok b →
        (addWatermarkHandler env st req).state = { bytes := some b, loaded := true }
        ∧ (addWatermarkHandler env st req).fontReads = 1) := by
  refine ⟨fun b st => rfl, fun env st req h => ?_, fun e st => rfl,
    fun env st req e h he => ?_, fun env st req b h hb => ?_⟩
  · simp [addWatermarkHandler, h]
  · simp [addWatermarkHandler, h, loadSarabunFont, he]
  · simp [addWatermarkHandler, h, loadSarabunFont, hb]

/-- C7 witness: the loader contract at concrete states — a failing cold
load answers 500 and stays cold; a warm cache does zero reads. -/
theorem font_loader_lazy_retry_witness :
    ((addWatermarkHandler fontFailEnv coldState emptyReq).response
        = .err 500 ("Failed to load Sarabun font: " ++ "ENOENT") none
      ∧ (addWatermarkHandler fontFailEnv coldState emptyReq).state = coldState
      ∧ (addWatermarkHandler fontFailEnv coldState emptyReq).fontReads = 1)
    ∧ ((addWatermarkHandler okEnv loadedState pdfReq).fontReads = 0
      ∧ (addWatermarkHandler okEnv loadedState pdfReq).state = loadedState
      ∧ (addWatermarkHandler okEnv loadedState pdfReq).response
          = handleAfterFont okEnv (loadedState.bytes.getD []) pdfReq)
    ∧ ((addWatermarkHandler okEnv coldState emptyReq).state
          = { bytes := some [0], loaded := true }
      ∧ (addWatermarkHandler okEnv coldState emptyReq).fontReads = 1) :=
  ⟨font_loader_lazy_retry.2.2.2.1 fontFailEnv coldState emptyReq "ENOENT" rfl rfl,
   font_loader_lazy_retry.2.1 okEnv loadedState pdfReq rfl,
   font_loader_lazy_retry.2.2.2.2 okEnv coldState emptyReq [0] rfl rfl⟩

/-- C8: with the font available and a non-empty `pdfBase64`, the response
is determined by the `try` region at the request boundary: any exception
there (decode/parse, font embedding, drawing, serialisation) becomes a 500
`Failed to generate watermarked PDF` carrying the underlying message, and
a success response carries exactly the fully watermarked document — never
a partial result. -/
theorem errors_caught_at_boundary (env : Env) (st : FontState) (req : Request) (s : String)
    (hp : req.pdfBase64 = some s) (hs : s ≠ "") :
    (st.loaded = true →
      (addWatermarkHandler env st req).response =
        match tryAddWatermark env (st.bytes.getD []) req s with
        | .ok body => .ok body
        | .error e => .err 500 "Failed to generate watermarked PDF" (some e))
    ∧ (∀ b : Bytes, st.loaded = false → env.fontRead = .ok b →
        (addWatermarkHandler env st req).response =
          match tryAddWatermark env b req s with
          | .ok body => .ok body
          | .error e => .err 500 "Failed to generate watermarked PDF" (some e))
    ∧ (∀ e, st.loaded = true → tryAddWatermark env (st.bytes.getD []) req s = .error e →
        (addWatermarkHandler env st req).response
          = .err 500 "Failed to generate watermarked PDF" (some e))
    ∧ (∀ body, (addWatermarkHandler env st req).response = .ok body →
        ∃ fb : Bytes, tryAddWatermark env fb req s = .ok body) := by
  have hwarm : st.loaded = true →
      (addWatermarkHandler env st req).response =
        match tryAddWatermark env (st.bytes.getD []) req s with
        | .ok body => .ok body
        | .error e => .err 500 "Failed to generate watermarked PDF" (some e) := by
    intro hl
    simp [addWatermarkHandler, hl, handleAfterFont, hp, hs]
  refine ⟨hwarm, fun b hl hb => ?_, fun e hl he => ?_, fun body hb => ?_⟩
  · simp [addWatermarkHandler, hl, loadSarabunFont, hb, handleAfterFont, hp, hs]
  · rw [hwarm hl, he]
  · obtain ⟨fb, hfb⟩ := handler_ok env st req body hb
    exact ⟨fb, handleAfterFont_ok env fb req s body hp hfb⟩

/-- C8 witness: the boundary theorem at a concrete request whose document
parse fails — the response is a 500 carrying the parse error's message. -/
theorem errors_caught_witness :
    (addWatermarkHandler badPdfEnv loadedState pdfReq).response
      = .err 500 "Failed to generate watermarked PDF" (some "Failed to parse PDF document") :=
  (errors_caught_at_boundary badPdfEnv loadedState pdfReq "JVBERi0=" rfl
    (by decide)).2.2.1 "Failed to parse PDF document" rfl rfl

end Watermark
